import Mathlib

/-!
Verification development for the `security_cam` lambda handlers
(`presign.py`, `notify.py`, `list.py`, `manage.py`).

The four Python handlers are shallowly embedded as pure Lean functions.
Storage and email side effects are modelled by explicit environments
(oracles deciding which calls succeed) and explicit call traces in the
results.  Python strings are modelled as Lean `String` (operated on via
their underlying `List Char`), Python `None`-able values as `Option`,
and uncaught Python exceptions as explicit abort outcomes.
-/

namespace SecurityCam

/-- Python slice `s[n:]` on a string. -/
def pyDrop (n : Nat) (s : String) : String := ⟨s.data.drop n⟩

/-- Python slice `s[:-n]` on a string: keep all but the last `n` characters. -/
def pyDropLast (n : Nat) (s : String) : String := ⟨s.data.take (s.data.length - n)⟩

/-- Python `s.startswith(p)`. -/
def pyStartsWith (s p : String) : Bool := p.data.isPrefixOf s.data

/-- Python `s.endswith(p)`. -/
def pyEndsWith (s p : String) : Bool := p.data.isSuffixOf s.data

/-- Python `s.split(sep)` for a single-character separator, on character
lists: splits at every occurrence of `sep`; the result is never empty. -/
def splitOnChar (sep : Char) (cs : List Char) : List (List Char) :=
  cs.foldr
    (fun c acc =>
      if c = sep then [] :: acc
      else
        match acc with
        | [] => [[c]]
        | h :: t => (c :: h) :: t)
    [[]]

namespace Manage

/-- manage.py `thumb_key`: derive thumbnail key from clip key.
`name = clip_key[len('clips/'):-len('.avi')]`, result `f'thumbs/{name}_thumb.jpg'`. -/
def thumb_key (clip_key : String) : String :=
  let name := pyDropLast 4 (pyDrop 6 clip_key)
  "thumbs/" ++ name ++ "_thumb.jpg"

/-- A Python value as relevant to manage.py `handler`: the possible results
of `json.loads` and the possible field values inside a JSON object.  List
elements are irrelevant to the handler, so only the length (which decides
truthiness) is kept. -/
inductive PyVal where
  | pynone
  | pybool (b : Bool)
  | pynum (n : Int)
  | pystr (s : String)
  | pylist (len : Nat)
  | pydict (fields : List (String × PyVal))

/-- Python `dict.get(key)`: the first value stored under `key`, or `None`. -/
def dictGet : List (String × PyVal) → String → PyVal
  | [], _ => .pynone
  | (k, v) :: rest, key => if k = key then v else dictGet rest key

/-- Python truthiness (`not x`) for the modelled values. -/
def pyTruthy : PyVal → Bool
  | .pynone => false
  | .pybool b => b
  | .pynum n => n != 0
  | .pystr s => s != ""
  | .pylist len => len != 0
  | .pydict fields => !fields.isEmpty

/-- Outcome of `json.loads(event.get('body') or '{}')` in manage.py `handler`:
`jsonError` models `json.JSONDecodeError` (body text not valid JSON),
`typeError` models `TypeError` (an `event['body']` that is not a string),
`val v` the parsed value. -/
inductive LoadResult where
  | jsonError
  | typeError
  | val (v : PyVal)

/-- One storage call made by manage.py, with its arguments. -/
inductive S3Call where
  | putTagging (key : String) (tagSet : List (String × String))
  | headObject (key : String)
  | deleteObjects (keys : List String)

/-- Oracle for the storage calls of manage.py: which `put_object_tagging`
calls raise `ClientError`, which `head_object` probes succeed (`false` = the
probe raises `ClientError`), and which batched `delete_objects` calls raise
`ClientError`. -/
structure Env where
  putFails : String → Bool
  headOk : String → Bool
  deleteFails : List String → Bool

/-- manage.py `set_keep_tag`: one `put_object_tagging` call replacing the tag
set with `keep=<value>`.  Returns whether the call succeeded, and the call. -/
def set_keep_tag (env : Env) (clip_key value : String) : Bool × List S3Call :=
  (!env.putFails clip_key, [.putTagging clip_key [("keep", value)]])

/-- manage.py `delete_clip`: probe the thumbnail with `head_object`
(`ClientError` swallowed: thumbnail treated as absent), then one batched
`delete_objects` on the clip plus, only if the probe succeeded, the
thumbnail.  Returns whether `delete_objects` succeeded, and both calls. -/
def delete_clip (env : Env) (clip_key : String) : Bool × List S3Call :=
  let tk := thumb_key clip_key
  let objects := if env.headOk tk then [clip_key, tk] else [clip_key]
  (!env.deleteFails objects, [.headObject tk, .deleteObjects objects])

/-- The HTTP response produced by manage.py `handler`.  The source's JSON
error payloads are represented by constructor (the `unknownAction` payload is
the offending action value interpolated by `f'Unknown action: {action}'`). -/
inductive ManageResp where
  | invalidJson
  | missingFields
  | badClipKey
  | unknownAction (a : PyVal)
  | s3Error
  | ok

/-- The status code of each manage.py response. -/
def statusCode : ManageResp → Nat
  | .invalidJson => 400
  | .missingFields => 400
  | .badClipKey => 400
  | .unknownAction _ => 400
  | .s3Error => 500
  | .ok => 200

/-- Overall outcome of one manage.py invocation: an HTTP response, or an
uncaught Python `AttributeError` (raised by `.get` on a non-dict body or by
`.startswith` on a non-string `clip_key`; the `except` clause catches only
`json.JSONDecodeError` and `TypeError`, so the invocation fails without
producing a response). -/
inductive ManageOutcome where
  | resp (r : ManageResp)
  | attributeError

/-- The status code of an outcome; `none` when the handler produced no
response (uncaught exception). -/
def statusCodeOf : ManageOutcome → Option Nat
  | .resp r => some (statusCode r)
  | .attributeError => none

/-- manage.py `handler`, over the outcome of body parsing: field extraction
(with `AttributeError` on a non-dict body), presence check via Python
truthiness, `clips/*.avi` shape check (with `AttributeError` on a non-string
`clip_key`), then the action dispatch whose `ClientError`s become 500
responses.  Returns the outcome and the trace of storage calls made. -/
def handler (env : Env) (load : LoadResult) : ManageOutcome × List S3Call :=
  match load with
  | .jsonError => (.resp .invalidJson, [])
  | .typeError => (.resp .invalidJson, [])
  | .val body =>
    match body with
    | .pydict fields =>
      let action := dictGet fields ("action")
      let clip_key := dictGet fields ("clip_key")
      if !pyTruthy action || !pyTruthy clip_key then (.resp .missingFields, [])
      else
        match clip_key with
        | .pystr ck =>
          if !pyStartsWith ck ("clips/") || !pyEndsWith ck (".avi") then
            (.resp .badClipKey, [])
          else
            match action with
            | .pystr a =>
              if a = "keep" then
                let r := set_keep_tag env ck ("true")
                ((if r.1 then .resp .ok else .resp .s3Error), r.2)
              else if a = "unkeep" then
                let r := set_keep_tag env ck ("false")
                ((if r.1 then .resp .ok else .resp .s3Error), r.2)
              else if a = "delete" then
                let r := delete_clip env ck
                ((if r.1 then .resp .ok else .resp .s3Error), r.2)
              else (.resp (.unknownAction (.pystr a)), [])
            | other => (.resp (.unknownAction other), [])
        | _ => (.attributeError, [])
    | _ => (.attributeError, [])

end Manage

/-- Modelled from the spec: the inverse derivation of the thumbnail-key mapping
(the code only uses the forward direction): strip the `thumbs/` prefix and the
`_thumb.jpg` suffix from a thumbnail key, recovering the clip basename. -/
def thumbKeyToBasename (tk : String) : String := pyDropLast 10 (pyDrop 7 tk)

namespace Gallery

/-- Take exactly `n` leading ASCII-digit characters, returning them and the
remainder; `none` if fewer than `n` digits lead the list.  Building block for
the regex `_(\d{8})_(\d{6})$` of list.py `parse_timestamp`. -/
def takeDigits : Nat → List Char → Option (List Char × List Char)
  | 0, cs => some ([], cs)
  | _ + 1, [] => none
  | n + 1, c :: cs =>
    if c.isDigit then (takeDigits n cs).map (fun p => (c :: p.1, p.2)) else none

/-- The regex search `_(\d{8})_(\d{6})$` of list.py `parse_timestamp`:
succeeds exactly when the string ends in `_<8 digits>_<6 digits>`, returning
the two digit groups (`YYYYMMDD`, `HHMMSS`).  Because the match is anchored at
the end of the string and the two group lengths are fixed, `re.search` can
match at exactly one offset, so matching the reversed character list is
equivalent.  (Python's `\d` also covers non-ASCII Unicode digits and `$` also
matches just before one trailing newline; neither case arises for the clip
basenames this system produces, and both are out of scope here.) -/
def splitStamp (cs : List Char) : Option (List Char × List Char) :=
  match takeDigits 6 cs.reverse with
  | none => none
  | some (hmsRev, r1) =>
    match r1 with
    | '_' :: r2 =>
      match takeDigits 8 r2 with
      | none => none
      | some (ymdRev, r3) =>
        match r3 with
        | '_' :: _ => some (ymdRev.reverse, hmsRev.reverse)
        | _ => none
    | _ => none

/-- Numeric value of one ASCII digit character. -/
def digitVal (c : Char) : Nat := c.toNat - 48

/-- Numeric value of a list of ASCII digit characters (base 10). -/
def digitsToNat (cs : List Char) : Nat := cs.foldl (fun a c => 10 * a + digitVal c) 0

/-- Gregorian leap-year rule, as used by Python `datetime`. -/
def isLeap (y : Nat) : Bool := y % 4 == 0 && (y % 100 != 0 || y % 400 == 0)

/-- Days in a month, as enforced by Python `datetime`. -/
def daysInMonth (y m : Nat) : Nat :=
  if m = 2 then (if isLeap y then 29 else 28)
  else if m = 4 ∨ m = 6 ∨ m = 9 ∨ m = 11 then 30
  else 31

/-- The calendar validation performed by
`datetime.strptime(..., '%Y%m%d%H%M%S')` in list.py `parse_timestamp`:
the digits must form a real date/time (year ≥ 1, month 1–12, day within the
month, hour ≤ 23, minute ≤ 59, second ≤ 59); otherwise `ValueError` is
raised, which the source catches and turns into `None`. -/
def validDateTime (y mo d h mi s : Nat) : Bool :=
  1 ≤ y && y ≤ 9999 && 1 ≤ mo && mo ≤ 12 && 1 ≤ d && d ≤ daysInMonth y mo &&
  h ≤ 23 && mi ≤ 59 && s ≤ 59

/-- `validDateTime` applied to the two digit groups of a matched stamp. -/
def stampValid (ymd hms : List Char) : Bool :=
  validDateTime (digitsToNat (ymd.take 4)) (digitsToNat ((ymd.drop 4).take 2))
    (digitsToNat (ymd.drop 6)) (digitsToNat (hms.take 2))
    (digitsToNat ((hms.drop 2).take 2)) (digitsToNat (hms.drop 4))

/-- `datetime.replace(tzinfo=timezone.utc).isoformat()` for a parsed stamp:
`YYYY-MM-DDTHH:MM:SS+00:00`.  Since the matched groups are exactly the
zero-padded digit characters, the digits printed by `isoformat` coincide with
the matched characters. -/
def isoFormat (ymd hms : List Char) : String :=
  ⟨ymd.take 4 ++ '-' :: (ymd.drop 4).take 2 ++ '-' :: ymd.drop 6 ++
   'T' :: hms.take 2 ++ ':' :: (hms.drop 2).take 2 ++ ':' :: hms.drop 4 ++
   ("+00:00").data⟩

/-- list.py `parse_timestamp`: parse `DEVICE_YYYYMMDD_HHMMSS` from a clip
basename.  Returns the ISO 8601 UTC string, or `none` when the trailing
pattern is absent or the digits are not a calendar-valid date/time. -/
def parse_timestamp (name : String) : Option String :=
  match splitStamp name.data with
  | none => none
  | some (ymd, hms) =>
    if stampValid ymd hms then some (isoFormat ymd hms) else none

/-- One storage object as reported by the (external) `list_objects_v2`
pagination in list.py: its key, the ISO string of its `LastModified` time,
and its size in bytes. -/
structure S3Object where
  key : String
  lastModified : String
  size : Nat
deriving DecidableEq

/-- Oracle for the storage calls made by list.py `handler`:
`presign k` is the URL returned by `generate_presigned_url('get_object', Key=k)`;
`thumbExists k` tells whether `head_object(Key=k)` succeeds (`false` = it
raises `ClientError`, which the source swallows);
`tagRead k` is the `TagSet` returned by `get_object_tagging(Key=k)`, or
`none` when that call raises `ClientError` (also swallowed). -/
structure Env where
  presign : String → String
  thumbExists : String → Bool
  tagRead : String → Option (List (String × String))

/-- One element of the JSON array built by list.py `handler`.  The source's
`size_mb` field is `round(obj['Size'] / 1048576, 2)` computed in floating
point; float rounding is not modelled, so the raw byte count is carried
instead (no claim concerns the size field). -/
structure ClipRecord where
  clip_key : String
  clip_url : String
  thumb_url : Option String
  timestamp : String
  size_bytes : Nat
  kept : Bool
deriving DecidableEq

/-- The `kept` computation of list.py: `any(t['Key'] == 'keep' and
t['Value'] == 'true' for t in tags.get('TagSet', []))`. -/
def keptOfTagSet (ts : List (String × String)) : Bool :=
  ts.any (fun t => t.1 == "keep" && t.2 == "true")

/-- The record appended to `clips` for one `.avi` object in list.py `handler`:
basename from `key[len('clips/'):-len('.avi')]`, presigned clip URL, thumbnail
URL only if the `head_object` probe succeeds, timestamp from the filename with
fallback to `LastModified` (Python `or`; `parse_timestamp` never returns an
empty string, so `Option.getD` is an exact model), and the keep-tag decode
with `ClientError` swallowed leaving `kept = False`. -/
def recordOf (env : Env) (obj : S3Object) : ClipRecord :=
  let name := pyDropLast 4 (pyDrop 6 obj.key)
  let tk := "thumbs/" ++ name ++ "_thumb.jpg"
  { clip_key := obj.key
    clip_url := env.presign obj.key
    thumb_url := if env.thumbExists tk then some (env.presign tk) else none
    timestamp := (parse_timestamp name).getD obj.lastModified
    size_bytes := obj.size
    kept :=
      match env.tagRead obj.key with
      | none => false
      | some tagSet => keptOfTagSet tagSet }

/-- Per-object processing in the listing loop: keys not ending in `.avi` are
skipped (`continue`), every other object contributes one record. -/
def mkRecord (env : Env) (obj : S3Object) : Option ClipRecord :=
  if pyEndsWith obj.key (".avi") then some (recordOf env obj) else none

/-- The descending-by-timestamp comparison of
`clips.sort(key=lambda c: c['timestamp'], reverse=True)`. -/
def newerLe (a b : ClipRecord) : Bool := decide (b.timestamp ≤ a.timestamp)

/-- list.py `handler`, over the flattened contents of all pagination pages
(pagination itself is performed by the external storage client): build one
record per `.avi` object, then sort newest-first by timestamp string.
Python's stable `sort(..., reverse=True)` is modelled by a stable merge sort
with the reversed comparison. -/
def handler (env : Env) (objects : List S3Object) : List ClipRecord :=
  (objects.filterMap (mkRecord env)).mergeSort newerLe

end Gallery

namespace Notify

/-- One hexadecimal digit, as decoded by `urllib.parse.unquote_plus`. -/
def hexVal (c : Char) : Option Nat :=
  if '0' ≤ c ∧ c ≤ '9' then some (c.toNat - 48)
  else if 'A' ≤ c ∧ c ≤ 'F' then some (c.toNat - 55)
  else if 'a' ≤ c ∧ c ≤ 'f' then some (c.toNat - 87)
  else none

/-- `urllib.parse.unquote_plus` on character lists: `+` becomes a space,
`%XX` with two hex digits becomes the character of that byte value, and
malformed escapes are passed through unchanged.  (Multi-byte UTF-8 escape
sequences are decoded byte-by-byte here; the object keys this system produces
contain none.) -/
def unquotePlusList : List Char → List Char
  | [] => []
  | '+' :: rest => ' ' :: unquotePlusList rest
  | '%' :: c1 :: c2 :: rest =>
    match hexVal c1, hexVal c2 with
    | some hi, some lo => Char.ofNat (16 * hi + lo) :: unquotePlusList rest
    | _, _ => '%' :: unquotePlusList (c1 :: c2 :: rest)
  | c :: rest => c :: unquotePlusList rest

/-- `urllib.parse.unquote_plus` on strings, as applied to
`record['s3']['object']['key']` in notify.py. -/
def unquote_plus (s : String) : String := ⟨unquotePlusList s.data⟩

/-- Oracle for the external calls of notify.py: whether
`generate_presigned_url` raises for a key, the URL it returns otherwise,
whether `ses.send_email` raises for the record's key, and whether
`put_object_tagging` raises `ClientError` (the only call in a try/except). -/
structure Env where
  presignFails : String → Bool
  presign : String → String
  emailFails : String → Bool
  tagFails : String → Bool

/-- One alert email composed and sent by notify.py. -/
structure Email where
  subject : String
  body : String
deriving DecidableEq

/-- Observable result of one notify.py invocation: the emails sent, the
`put_object_tagging` attempts `(key, succeeded)`, and whether an uncaught
exception aborted the invocation before the batch was fully processed. -/
structure Result where
  emails : List Email
  tagCalls : List (String × Bool)
  aborted : Bool
deriving DecidableEq

/-- notify.py `handler`, over the batch `event.get('Records', [])` (each
record contributing its `record['s3']['object']['key']`).  Keys not ending in
`.avi` are skipped.  Only the tag write sits inside a try/except; an
exception raised by URL presigning or by `ses.send_email` propagates and
aborts the remaining records of the batch. -/
def handler (env : Env) (records : List String) : Result :=
  match records with
  | [] => { emails := [], tagCalls := [], aborted := false }
  | r :: rest =>
    let key := unquote_plus r
    if pyEndsWith key (".avi") then
      if env.presignFails key then { emails := [], tagCalls := [], aborted := true }
      else
        let view_url := env.presign key
        let clip_name : String := ⟨(splitOnChar '/' key.data).getLastD []⟩
        let device_id : String := ⟨(splitOnChar '_' clip_name.data).headD []⟩
        if env.emailFails key then { emails := [], tagCalls := [], aborted := true }
        else
          let email : Email :=
            { subject := "Motion detected — " ++ device_id
              body := "Motion detected on " ++ device_id ++ "\n\nClip: " ++ clip_name ++
                "\n\nDownload / play (link expires in 7 days):\n" ++ view_url ++ "\n" }
          let rres := handler env rest
          { emails := email :: rres.emails
            tagCalls := (key, !env.tagFails key) :: rres.tagCalls
            aborted := rres.aborted }
    else handler env rest

end Notify

namespace Presign

/-- Configuration and external URL issuer of presign.py: the shared secret
`os.environ['API_KEY']`, and the URL returned by
`generate_presigned_url('put_object', Key=k)`. -/
structure Env where
  apiKey : String
  presignPut : String → String

/-- The response of presign.py `handler`: 403 `Forbidden`, 400
`Missing clip or thumb parameter`, or 200 with the two presigned PUT URLs. -/
inductive Outcome where
  | forbidden
  | missingParams
  | ok (clip_url thumb_url : String)
deriving DecidableEq

/-- Python truthiness of an optional query/header string value
(`None` and the empty string are falsy). -/
def optTruthy : Option String → Bool
  | none => false
  | some s => s != ""

/-- presign.py `handler`: the `x-api-key` header value must equal the
configured secret (`headers.get('x-api-key') != API_KEY` rejects with 403,
an absent header included); then both the `clip` and `thumb` query parameters
must be truthy (else 400); then two presigned PUT URLs are issued, for
`clips/<clip>` and `thumbs/<thumb>`.  Returns the outcome and the trace of
keys for which presigned PUT URLs were issued. -/
def handler (env : Env) (xApiKey : Option String) (clip thumb : Option String) :
    Outcome × List String :=
  if xApiKey ≠ some env.apiKey then (.forbidden, [])
  else if !optTruthy clip || !optTruthy thumb then (.missingParams, [])
  else
    let c := clip.getD ""
    let t := thumb.getD ""
    (.ok (env.presignPut ("clips/" ++ c)) (env.presignPut ("thumbs/" ++ t)),
      ["clips/" ++ c, "thumbs/" ++ t])

end Presign

/-- A benign manage.py storage oracle for concrete runs: no storage call
fails and the thumbnail probe reports absence. -/
def envManageW : Manage.Env :=
  { putFails := fun _ => false
    headOk := fun _ => false
    deleteFails := fun _ => false }

/-- A listing oracle whose tag reads report `keep=true` for every object. -/
def envKeptTrue : Gallery.Env :=
  { presign := fun k => "url:" ++ k
    thumbExists := fun _ => false
    tagRead := fun _ => some [("keep", "true")] }

/-- A listing oracle whose tag reads all fail with `ClientError`. -/
def envTagReadFails : Gallery.Env :=
  { presign := fun k => "url:" ++ k
    thumbExists := fun _ => false
    tagRead := fun _ => none }

/-- A concrete listed object with a parseable timestamp. -/
def objW : Gallery.S3Object :=
  { key := "clips/cam1_20260221_120000.avi"
    lastModified := "2026-02-21T12:34:56+00:00"
    size := 1048576 }

/-- A second concrete listed object, older than `objW`. -/
def objW2 : Gallery.S3Object :=
  { key := "clips/cam2_20250103_080000.avi"
    lastModified := "2025-01-03T08:11:22+00:00"
    size := 2097152 }

/-- A notify.py oracle under which sending the email for the first witness
key raises, and nothing else fails. -/
def envNotifyCex : Notify.Env :=
  { presignFails := fun _ => false
    presign := fun k => "https://presigned/" ++ k
    emailFails := fun k => k == "clips/cam1_20260221_120000.avi"
    tagFails := fun _ => false }

/-- A notify.py oracle under which every tag write raises `ClientError` and
nothing else fails. -/
def envNotifyTagFail : Notify.Env :=
  { presignFails := fun _ => false
    presign := fun k => "https://presigned/" ++ k
    emailFails := fun _ => false
    tagFails := fun _ => true }

/-!  Helper lemmas. -/

/-- Dropping a concrete-length front segment of an append. -/
theorem dropFrontAppend (l₁ l₂ : List Char) (n : Nat) (h : l₁.length = n) :
    (l₁ ++ l₂).drop n = l₂ := by
  subst h; exact List.drop_left l₁ l₂

/-- Taking everything but a concrete-length tail segment of an append. -/
theorem takeAllButAppend (l₁ l₂ : List Char) (n : Nat) (h : l₂.length = n) :
    (l₁ ++ l₂).take ((l₁ ++ l₂).length - n) = l₁ := by
  subst h
  have hl : (l₁ ++ l₂).length - l₂.length = l₁.length := by
    simp [List.length_append]
  rw [hl]
  exact List.take_left l₁ l₂

/-- `takeDigits n` consumes exactly an all-digit front segment of length `n`. -/
theorem takeDigits_append (ds rest : List Char) (h : ∀ c ∈ ds, c.isDigit = true) :
    Gallery.takeDigits ds.length (ds ++ rest) = some (ds, rest) := by
  induction ds with
  | nil => rfl
  | cons c cs ih =>
    simp only [List.length_cons, List.cons_append, Gallery.takeDigits,
      h c (by simp), if_true]
    rw [show cs.append rest = cs ++ rest from rfl, ih (fun x hx => h x (by simp [hx]))]
    rfl

/-- The end-anchored stamp match succeeds on any string of the form
`<prefix>_<8 digits>_<6 digits>` and returns the two digit groups. -/
theorem splitStamp_append (p ymd hms : List Char)
    (hy : ymd.length = 8) (hh : hms.length = 6)
    (hyd : ∀ c ∈ ymd, c.isDigit = true) (hhd : ∀ c ∈ hms, c.isDigit = true) :
    Gallery.splitStamp (p ++ '_' :: ymd ++ '_' :: hms) = some (ymd, hms) := by
  have h6 : Gallery.takeDigits 6 (hms.reverse ++ '_' :: (ymd.reverse ++ '_' :: p.reverse))
      = some (hms.reverse, '_' :: (ymd.reverse ++ '_' :: p.reverse)) := by
    have ht := takeDigits_append hms.reverse ('_' :: (ymd.reverse ++ '_' :: p.reverse))
      (fun c hc => hhd c (List.mem_reverse.mp hc))
    rwa [List.length_reverse, hh] at ht
  have h8 : Gallery.takeDigits 8 (ymd.reverse ++ '_' :: p.reverse)
      = some (ymd.reverse, '_' :: p.reverse) := by
    have ht := takeDigits_append ymd.reverse ('_' :: p.reverse)
      (fun c hc => hyd c (List.mem_reverse.mp hc))
    rwa [List.length_reverse, hy] at ht
  simp [Gallery.splitStamp, List.reverse_append, h6, h8]

/-!  Claims. -/

/-- C3: for every clip key of the form `clips/<basename>.avi`, the derived
thumbnail key is `thumbs/<basename>_thumb.jpg`, and the inverse derivation
(stripping the `thumbs/` prefix and `_thumb.jpg` suffix) recovers the
original clip basename: the clip-key-to-thumb-key mapping is a round trip
on basenames. -/
theorem c3_thumb_key_roundtrip (b : String) :
    Manage.thumb_key ("clips/" ++ b ++ (".avi")) = "thumbs/" ++ b ++ ("_thumb.jpg") ∧
    thumbKeyToBasename ("thumbs/" ++ b ++ ("_thumb.jpg")) = b := by
  constructor
  · apply String.ext
    have h6 : ("clips/".data).length = 6 := rfl
    have h4 : (".avi".data).length = 4 := rfl
    simp only [Manage.thumb_key, pyDrop, pyDropLast, String.data_append, List.append_assoc]
    rw [dropFrontAppend _ _ 6 h6, takeAllButAppend _ _ 4 h4]
  · apply String.ext
    have h7 : ("thumbs/".data).length = 7 := rfl
    have h10 : (("_thumb.jpg").data).length = 10 := rfl
    simp only [thumbKeyToBasename, pyDrop, pyDropLast, String.data_append, List.append_assoc]
    rw [dropFrontAppend _ _ 7 h7, takeAllButAppend _ _ 10 h10]

/-- C3 witness: the round trip evaluated at a concrete valid clip basename. -/
theorem c3_thumb_key_roundtrip_witness :
    Manage.thumb_key ("clips/cam1_20260221_120000.avi") = "thumbs/cam1_20260221_120000_thumb.jpg" ∧
    thumbKeyToBasename ("thumbs/cam1_20260221_120000_thumb.jpg") = "cam1_20260221_120000" :=
  c3_thumb_key_roundtrip ("cam1_20260221_120000")

/-- C8: `parse_timestamp` matches a trailing `_<8 digits>_<6 digits>` pattern
anchored at the end of the basename and returns the corresponding UTC
timestamp (for any prefix); it returns no match (`none`, not an error) when
the pattern is absent or the digits do not form a calendar-valid date/time.
In particular, on `cam1_20260221_120000` it yields
`2026-02-21T12:00:00+00:00`, on `cam1_bad_data` it yields no match, and on
the calendar-invalid `cam1_20261321_120000` (month 13) it yields no match. -/
theorem c8_parse_timestamp_spec :
    (∀ (p ymd hms : List Char), ymd.length = 8 → hms.length = 6 →
      (∀ c ∈ ymd, c.isDigit = true) → (∀ c ∈ hms, c.isDigit = true) →
      Gallery.stampValid ymd hms = true →
      Gallery.parse_timestamp ⟨p ++ '_' :: ymd ++ '_' :: hms⟩ =
        some (Gallery.isoFormat ymd hms)) ∧
    Gallery.parse_timestamp ("cam1_20260221_120000") = some ("2026-02-21T12:00:00+00:00") ∧
    Gallery.parse_timestamp ("cam1_bad_data") = none ∧
    Gallery.parse_timestamp ("cam1_20261321_120000") = none := by
  refine ⟨?_, by decide, by decide, by decide⟩
  intro p ymd hms hy hh hyd hhd hv
  unfold Gallery.parse_timestamp
  rw [show (String.mk (p ++ '_' :: ymd ++ '_' :: hms)).data
        = p ++ '_' :: ymd ++ '_' :: hms from rfl,
    splitStamp_append p ymd hms hy hh hyd hhd]
  simp [hv]

/-- C8 witness: the general conjunct applied at a concrete basename. -/
theorem c8_parse_timestamp_spec_witness :
    Gallery.parse_timestamp ("cam9_20250101_235959") = some ("2025-01-01T23:59:59+00:00") :=
  c8_parse_timestamp_spec.1 (("cam9").data) (("20250101").data) (("235959").data)
    rfl rfl (by decide) (by decide) (by decide)

/-- C4: for every clip record produced by the Gallery Lister, a clip whose
object has no retention (`keep`) tag reports `kept = false`; one tagged
exactly `keep=true` reports `kept = true`; and any other `keep` tag value
reports `kept = false`. -/
theorem c4_kept_tag_decode (env : Gallery.Env) (obj : Gallery.S3Object)
    (tagSet : List (String × String)) (v : String) (r : Gallery.ClipRecord)
    (hread : env.tagRead obj.key = some tagSet)
    (hr : Gallery.mkRecord env obj = some r) :
    ((∀ t ∈ tagSet, t.1 ≠ "keep") → r.kept = false) ∧
    (tagSet = [("keep", "true")] → r.kept = true) ∧
    (v ≠ "true" → tagSet = [("keep", v)] → r.kept = false) := by
  have havi : pyEndsWith obj.key (".avi") = true := by
    by_contra hne
    rw [Gallery.mkRecord, if_neg hne] at hr
    exact Option.noConfusion hr
  rw [Gallery.mkRecord, if_pos havi, Option.some.injEq] at hr
  have hkept : r.kept = Gallery.keptOfTagSet tagSet := by
    rw [← hr]; simp [Gallery.recordOf, hread]
  refine ⟨fun hnone => ?_, fun heq => ?_, fun hv heq => ?_⟩
  · rw [hkept, Gallery.keptOfTagSet, List.any_eq_false]
    intro t ht
    simp only [Bool.and_eq_true, beq_iff_eq, not_and]
    intro hk
    exact absurd hk (hnone t ht)
  · rw [hkept, heq]; rfl
  · rw [hkept, heq]
    simp [Gallery.keptOfTagSet, hv]

/-- C4 witness: the `keep=true` branch evaluated at a concrete object under a
concrete oracle. -/
theorem c4_kept_tag_decode_witness :
    (Gallery.recordOf envKeptTrue objW).kept = true :=
  (c4_kept_tag_decode envKeptTrue objW [("keep", "true")] ("maybe")
    (Gallery.recordOf envKeptTrue objW) rfl (by decide)).2.1 rfl

/-- C5: for every input set of clips whose produced records have pairwise
distinct timestamps, the list returned by the Gallery Lister is sorted
strictly decreasing (newest first) by its timestamp string field. -/
theorem c5_sorted_newest_first (env : Gallery.Env) (objects : List Gallery.S3Object)
    (hdist : (objects.filterMap (Gallery.mkRecord env)).Pairwise
      (fun a b => a.timestamp ≠ b.timestamp)) :
    (Gallery.handler env objects).Pairwise
      (fun a b => b.timestamp < a.timestamp) := by
  have htrans : ∀ a b c : Gallery.ClipRecord,
      Gallery.newerLe a b = true → Gallery.newerLe b c = true →
      Gallery.newerLe a c = true := by
    intro a b c hab hbc
    simp only [Gallery.newerLe, decide_eq_true_eq] at *
    exact le_trans hbc hab
  have htotal : ∀ a b : Gallery.ClipRecord,
      (Gallery.newerLe a b || Gallery.newerLe b a) = true := by
    intro a b
    simp only [Gallery.newerLe, Bool.or_eq_true, decide_eq_true_eq]
    exact le_total b.timestamp a.timestamp
  have hsorted := List.sorted_mergeSort htrans htotal
    (objects.filterMap (Gallery.mkRecord env))
  have hperm := List.mergeSort_perm (objects.filterMap (Gallery.mkRecord env))
    Gallery.newerLe
  have hsym : ∀ {x y : Gallery.ClipRecord},
      x.timestamp ≠ y.timestamp → y.timestamp ≠ x.timestamp :=
    fun {_ _} h => Ne.symm h
  have hdist2 := (List.Perm.pairwise_iff hsym hperm).mpr hdist
  have hcomb := List.Pairwise.and hsorted hdist2
  have hfinal := hcomb.imp
    (fun {a b} h => lt_of_le_of_ne (of_decide_eq_true h.1) (Ne.symm h.2))
  exact hfinal

/-- C5 witness: two concrete clips listed out of chronological order come
back strictly newest-first. -/
theorem c5_sorted_newest_first_witness :
    (Gallery.handler envKeptTrue [objW2, objW]).Pairwise
      (fun a b => b.timestamp < a.timestamp) :=
  c5_sorted_newest_first envKeptTrue [objW2, objW] (by decide)

/-- C10: for every clip enumerated by the Gallery Lister, if reading the
clip's object tags fails with a storage client error, the clip is still
included in the response with `kept = false`; a tag-read failure never causes
the listing request itself to fail. -/
theorem c10_tag_read_failure_swallowed (env : Gallery.Env)
    (objects : List Gallery.S3Object) (obj : Gallery.S3Object)
    (hmem : obj ∈ objects)
    (havi : pyEndsWith obj.key (".avi") = true)
    (hfail : env.tagRead obj.key = none) :
    ∃ r ∈ Gallery.handler env objects, r.clip_key = obj.key ∧ r.kept = false := by
  refine ⟨Gallery.recordOf env obj, ?_, rfl, ?_⟩
  · have hmem2 : Gallery.recordOf env obj ∈ objects.filterMap (Gallery.mkRecord env) :=
      List.mem_filterMap.mpr ⟨obj, hmem, by rw [Gallery.mkRecord, if_pos havi]⟩
    have hperm := List.mergeSort_perm (objects.filterMap (Gallery.mkRecord env))
      Gallery.newerLe
    exact hperm.mem_iff.mpr hmem2
  · simp [Gallery.recordOf, hfail]

/-- C10 witness: one clip whose tag read raises `ClientError` still appears
in the listing, not kept. -/
theorem c10_tag_read_failure_swallowed_witness :
    ∃ r ∈ Gallery.handler envTagReadFails [objW], r.clip_key = objW.key ∧ r.kept = false :=
  c10_tag_read_failure_swallowed envTagReadFails [objW] objW (by decide) (by decide) rfl

/-- C6: for every delete action on a valid clip key whose paired thumbnail
does not exist (the `head_object` probe reports not-found), the Retention
Manager deletes only the clip object, issues exactly one batched delete
request (containing just the clip key), and reports success; the missing
thumbnail is not treated as an error. -/
theorem c6_delete_missing_thumbnail (env : Manage.Env) (ck : String)
    (hstart : pyStartsWith ck ("clips/") = true)
    (hend : pyEndsWith ck (".avi") = true)
    (hnothumb : env.headOk (Manage.thumb_key ck) = false)
    (hdel : env.deleteFails [ck] = false) :
    Manage.handler env
        (.val (.pydict [("action", .pystr ("delete")), ("clip_key", .pystr ck)]))
      = (.resp .ok, [.headObject (Manage.thumb_key ck), .deleteObjects [ck]]) := by
  have hck : ck ≠ "" := by
    intro h; subst h; exact absurd hstart (by decide)
  simp [Manage.handler, Manage.dictGet, Manage.pyTruthy, bne_iff_ne, hck,
    hstart, hend, Manage.delete_clip, hnothumb, hdel]

/-- C6 witness: a concrete delete of a clip with no thumbnail. -/
theorem c6_delete_missing_thumbnail_witness :
    Manage.handler envManageW
        (.val (.pydict [("action", .pystr ("delete")),
          ("clip_key", .pystr ("clips/cam1_20260221_120000.avi"))]))
      = (.resp .ok,
        [.headObject (Manage.thumb_key ("clips/cam1_20260221_120000.avi")),
         .deleteObjects [("clips/cam1_20260221_120000.avi")]]) :=
  c6_delete_missing_thumbnail envManageW ("clips/cam1_20260221_120000.avi")
    (by decide) (by decide) rfl rfl

/-- C7: for every Upload Authorizer request whose shared-secret header does
not match the configured value (an absent header included), the handler
returns the 403 response and issues no presigned URLs, regardless of the
filename parameters supplied. -/
theorem c7_bad_secret_no_urls (env : Presign.Env) (xApiKey : Option String)
    (clip thumb : Option String) (hsecret : xApiKey ≠ some env.apiKey) :
    Presign.handler env xApiKey clip thumb = (.forbidden, []) := by
  rw [Presign.handler, if_pos hsecret]

/-- C7 witness: a wrong secret with both filename parameters valid. -/
theorem c7_bad_secret_no_urls_witness :
    Presign.handler ⟨"s3cret", fun k => "put:" ++ k⟩ (some ("wrong"))
        (some ("cam1_20260221_120000.avi")) (some ("cam1_20260221_120000_thumb.jpg"))
      = (.forbidden, []) :=
  c7_bad_secret_no_urls ⟨"s3cret", fun k => "put:" ++ k⟩ (some ("wrong"))
    (some ("cam1_20260221_120000.avi")) (some ("cam1_20260221_120000_thumb.jpg"))
    (by decide)

/-- C9 (evaluation at the failing input): a `keep` action on a valid clip key
writes the retention tag to the clip object only; the handler makes no
tagging call for the paired thumbnail `thumbs/cam1_20260221_120000_thumb.jpg`,
contrary to notify.py's comment that "the manage Lambda tags the thumbnail if
the user explicitly keeps or un-keeps a clip". -/
theorem c9_keep_does_not_tag_thumbnail :
    Manage.handler envManageW
        (.val (.pydict [("action", .pystr ("keep")),
          ("clip_key", .pystr ("clips/cam1_20260221_120000.avi"))]))
      = (.resp .ok,
        [.putTagging ("clips/cam1_20260221_120000.avi") [("keep", "true")]]) := rfl

/-- C1 counterexample: a batch of two `.avi` creation records where sending
the alert email for the first record raises: the invocation aborts with no
email and no tag write recorded for the second record, refuting that a
failure in presigned-URL issuance or email sending on one record leaves the
remaining records processed. -/
theorem c1_email_failure_aborts_batch :
    Notify.handler envNotifyCex
        [("clips/cam1_20260221_120000.avi"), ("clips/cam2_20250103_080000.avi")]
      = { emails := [], tagCalls := [], aborted := true } := rfl

/-- C1 (amended): only the retention-tag write is isolated per record: when
no presigned-URL issuance and no email send fails, the batch is never
aborted, and every `.avi` record gets its email sent and its tag write
attempted, regardless of which tag writes fail. -/
theorem c1_tag_failures_isolated (env : Notify.Env) (records : List String)
    (hpres : ∀ k, env.presignFails k = false)
    (hmail : ∀ k, env.emailFails k = false) :
    (Notify.handler env records).aborted = false ∧
    (Notify.handler env records).emails.length
      = (records.filter (fun r => pyEndsWith (Notify.unquote_plus r) (".avi"))).length ∧
    (Notify.handler env records).tagCalls.length
      = (records.filter (fun r => pyEndsWith (Notify.unquote_plus r) (".avi"))).length := by
  induction records with
  | nil => exact ⟨rfl, rfl, rfl⟩
  | cons r rest ih =>
    by_cases h : pyEndsWith (Notify.unquote_plus r) (".avi") = true
    · simp [Notify.handler, h, hpres, hmail, List.filter_cons, ih.1, ih.2.1, ih.2.2]
    · simp [Notify.handler, h, List.filter_cons, ih.1, ih.2.1, ih.2.2]

/-- C1 witness for the amended claim: two `.avi` records whose tag writes
both raise `ClientError`: the batch is not aborted and both emails go out. -/
theorem c1_tag_failures_isolated_witness :
    (Notify.handler envNotifyTagFail
        [("clips/cam1_20260221_120000.avi"), ("clips/cam2_20250103_080000.avi")]).aborted
      = false ∧
    (Notify.handler envNotifyTagFail
        [("clips/cam1_20260221_120000.avi"), ("clips/cam2_20250103_080000.avi")]).emails.length
      = ([("clips/cam1_20260221_120000.avi"), ("clips/cam2_20250103_080000.avi")].filter
          (fun r => pyEndsWith (Notify.unquote_plus r) (".avi"))).length ∧
    (Notify.handler envNotifyTagFail
        [("clips/cam1_20260221_120000.avi"), ("clips/cam2_20250103_080000.avi")]).tagCalls.length
      = ([("clips/cam1_20260221_120000.avi"), ("clips/cam2_20250103_080000.avi")].filter
          (fun r => pyEndsWith (Notify.unquote_plus r) (".avi"))).length :=
  c1_tag_failures_isolated envNotifyTagFail
    [("clips/cam1_20260221_120000.avi"), ("clips/cam2_20250103_080000.avi")]
    (fun _ => rfl) (fun _ => rfl)

/-- C2 counterexample: a request whose body is the valid-JSON array `[]` is a
malformed request body, yet the handler raises an uncaught `AttributeError`
(from `[].get('action')`, which the `except (json.JSONDecodeError, TypeError)`
clause does not catch) instead of returning a 400-equivalent response; it
still makes no storage calls. -/
theorem c2_array_body_crashes :
    Manage.handler envManageW (.val (.pylist 0)) = (.attributeError, []) ∧
    Manage.statusCodeOf (Manage.handler envManageW (.val (.pylist 0))).1 ≠ some 400 :=
  ⟨rfl, by decide⟩

/-- C2 (amended): every Retention Manager request the handler rejects (400)
or crashes on makes no storage calls; an unparseable body, a body whose
fields fail the presence check, a string `clip_key` not of the shape
`clips/*.avi`, and an action other than `keep`/`unkeep`/`delete` each get a
400 response describing the problem; but a body that is valid JSON and not
an object, or a truthy non-string `clip_key`, raises an uncaught
`AttributeError` instead of a 400 (still with no storage calls). -/
theorem c2_validation_amended (env : Manage.Env) :
    (∀ load : Manage.LoadResult,
      (Manage.statusCodeOf (Manage.handler env load).1 = some 400 ∨
        (Manage.handler env load).1 = .attributeError) →
      (Manage.handler env load).2 = []) ∧
    (Manage.handler env .jsonError = (.resp .invalidJson, [])) ∧
    (Manage.handler env .typeError = (.resp .invalidJson, [])) ∧
    (∀ fields, (Manage.pyTruthy (Manage.dictGet fields ("action")) = false ∨
        Manage.pyTruthy (Manage.dictGet fields ("clip_key")) = false) →
      Manage.handler env (.val (.pydict fields)) = (.resp .missingFields, [])) ∧
    (∀ fields ck, Manage.dictGet fields ("clip_key") = .pystr ck →
      Manage.pyTruthy (Manage.dictGet fields ("action")) = true → ck ≠ "" →
      (pyStartsWith ck ("clips/") = false ∨ pyEndsWith ck (".avi") = false) →
      Manage.handler env (.val (.pydict fields)) = (.resp .badClipKey, [])) ∧
    (∀ fields ck a, Manage.dictGet fields ("clip_key") = .pystr ck →
      Manage.dictGet fields ("action") = .pystr a → ck ≠ "" →
      pyStartsWith ck ("clips/") = true → pyEndsWith ck (".avi") = true →
      a ≠ "keep" → a ≠ "unkeep" → a ≠ "delete" → a ≠ "" →
      Manage.handler env (.val (.pydict fields))
        = (.resp (.unknownAction (.pystr a)), [])) ∧
    (∀ v : Manage.PyVal, (∀ fields, v ≠ .pydict fields) →
      Manage.handler env (.val v) = (.attributeError, [])) ∧
    (∀ fields, Manage.pyTruthy (Manage.dictGet fields ("action")) = true →
      Manage.pyTruthy (Manage.dictGet fields ("clip_key")) = true →
      (∀ s, Manage.dictGet fields ("clip_key") ≠ .pystr s) →
      Manage.handler env (.val (.pydict fields)) = (.attributeError, [])) := by
  refine ⟨?_, rfl, rfl, ?_, ?_, ?_, ?_, ?_⟩
  · intro load h
    rcases load with _ | _ | v
    · rfl
    · rfl
    · rcases v with _ | b | n | s | len | fields
      · rfl
      · rfl
      · rfl
      · rfl
      · rfl
      · by_cases h1 : (!Manage.pyTruthy (Manage.dictGet fields ("action")) ||
            !Manage.pyTruthy (Manage.dictGet fields ("clip_key"))) = true
        · simp [Manage.handler, h1]
        · rw [Bool.not_eq_true] at h1
          simp at h1
          obtain ⟨hta, htc⟩ := h1
          rcases hck : Manage.dictGet fields ("clip_key") with _ | cb | cn | ck | cl | cf
          all_goals rw [hck] at htc
          · simp [Manage.handler, hta, htc, hck]
          · simp [Manage.handler, hta, htc, hck]
          · simp [Manage.handler, hta, htc, hck]
          · by_cases h2 : (!pyStartsWith ck ("clips/") || !pyEndsWith ck (".avi")) = true
            · simp [Manage.handler, hta, htc, hck, h2]
            · rw [Bool.not_eq_true] at h2
              simp at h2
              obtain ⟨hst, hen⟩ := h2
              rcases ha : Manage.dictGet fields ("action") with _ | ab | an | a | al | af
              all_goals rw [ha] at hta
              · simp [Manage.handler, hta, htc, hck, hst, hen, ha]
              · simp [Manage.handler, hta, htc, hck, hst, hen, ha]
              · simp [Manage.handler, hta, htc, hck, hst, hen, ha]
              · by_cases hk : a = "keep"
                · exfalso
                  subst hk
                  cases hpf : env.putFails ck <;>
                    simp [Manage.handler, hta, htc, hck, hst, hen, ha,
                      Manage.set_keep_tag, hpf,
                      Manage.statusCodeOf, Manage.statusCode] at h
                · by_cases hu : a = "unkeep"
                  · exfalso
                    subst hu
                    cases hpf : env.putFails ck <;>
                      simp [Manage.handler, hta, htc, hck, hst, hen, ha, hk,
                        Manage.set_keep_tag, hpf,
                        Manage.statusCodeOf, Manage.statusCode] at h
                  · by_cases hd : a = "delete"
                    · exfalso
                      subst hd
                      cases hho : env.headOk (Manage.thumb_key ck)
                      · cases hdf : env.deleteFails [ck] <;>
                          simp [Manage.handler, hta, htc, hck, hst, hen, ha, hk, hu,
                            Manage.delete_clip, hho, hdf,
                            Manage.statusCodeOf, Manage.statusCode] at h
                      · cases hdf : env.deleteFails [ck, Manage.thumb_key ck] <;>
                          simp [Manage.handler, hta, htc, hck, hst, hen, ha, hk, hu,
                            Manage.delete_clip, hho, hdf,
                            Manage.statusCodeOf, Manage.statusCode] at h
                    · simp [Manage.handler, hta, htc, hck, hst, hen, ha, hk, hu, hd]
              · simp [Manage.handler, hta, htc, hck, hst, hen, ha]
              · simp [Manage.handler, hta, htc, hck, hst, hen, ha]
          · simp [Manage.handler, hta, htc, hck]
          · simp [Manage.handler, hta, htc, hck]
  · intro fields h
    have hcond : (!Manage.pyTruthy (Manage.dictGet fields ("action")) ||
        !Manage.pyTruthy (Manage.dictGet fields ("clip_key"))) = true := by
      rcases h with h | h <;> simp [h]
    simp [Manage.handler, hcond]
  · intro fields ck hck htr hcknz hshape
    have htr2 : Manage.pyTruthy (Manage.PyVal.pystr ck) = true := by
      simp [Manage.pyTruthy, hcknz]
    have hcond : (!Manage.pyTruthy (Manage.dictGet fields ("action")) ||
        !Manage.pyTruthy (Manage.dictGet fields ("clip_key"))) = false := by
      simp [htr, hck, htr2]
    have hcond2 : (!pyStartsWith ck ("clips/") || !pyEndsWith ck (".avi")) = true := by
      rcases hshape with h | h <;> simp [h]
    simp [Manage.handler, hcond, hck, hcond2, htr, htr2]
  · intro fields ck a hck ha hcknz hstart hend hkeep hunkeep hdelete hanz
    have htr2 : Manage.pyTruthy (Manage.PyVal.pystr ck) = true := by
      simp [Manage.pyTruthy, hcknz]
    have htr3 : Manage.pyTruthy (Manage.PyVal.pystr a) = true := by
      simp [Manage.pyTruthy, hanz]
    have hcond : (!Manage.pyTruthy (Manage.dictGet fields ("action")) ||
        !Manage.pyTruthy (Manage.dictGet fields ("clip_key"))) = false := by
      simp [hck, ha, htr2, htr3]
    have hcond2 : (!pyStartsWith ck ("clips/") || !pyEndsWith ck (".avi")) = false := by
      simp [hstart, hend]
    simp [Manage.handler, hcond, hck, ha, hcond2, hkeep, hunkeep, hdelete,
      hstart, hend, htr2, htr3]
  · intro v hv
    rcases v with _ | b | n | s | len | fields
    · rfl
    · rfl
    · rfl
    · rfl
    · rfl
    · exact absurd rfl (hv fields)
  · intro fields htrA htrC hns
    rcases hck : Manage.dictGet fields ("clip_key") with _ | cb | cn | s | cl | cf
    all_goals rw [hck] at htrC
    · simp [Manage.pyTruthy] at htrC
    · simp [Manage.handler, hck, htrA, htrC]
    · simp [Manage.handler, hck, htrA, htrC]
    · exact absurd hck (hns s)
    · simp [Manage.handler, hck, htrA, htrC]
    · simp [Manage.handler, hck, htrA, htrC]

/-- C2 witness for the amended claim: `clip_key = "notes.txt"` (not of the
shape `clips/*.avi`) yields the 400 response with no storage calls. -/
theorem c2_validation_amended_witness :
    Manage.handler envManageW
        (.val (.pydict [("action", .pystr ("keep")), ("clip_key", .pystr ("notes.txt"))]))
      = (.resp .badClipKey, []) :=
  (c2_validation_amended envManageW).2.2.2.2.1
    [("action", .pystr ("keep")), ("clip_key", .pystr ("notes.txt"))] ("notes.txt")
    rfl rfl (by decide) (Or.inl (by decide))

end SecurityCam
